import Mathlib

/-!
Shallow embedding of the generation-dispatch, error-classification/fallback,
metrics-computation and aggregation core of the prompt-engineering playground
backend (src/backend/llm_service_fixed.py and src/backend/main.py).

Numbers: Python floats are modelled as rationals (ℚ); Python `int` counts as `Nat`
where the source guarantees non-negativity. Randomized draws (random.uniform,
random.choice) are modelled as explicit parameters. Python string operations are
modelled over the character list of the string (code points, matching Python
`len` and indexing); lowering is ASCII, which covers every string the source
compares against.
-/

namespace LlmPlayground

/-- Characters treated as whitespace by Python str.split() and str.strip()
without arguments (ASCII whitespace). -/
def pyIsSpace (c : Char) : Bool :=
  c == ' ' || c == '\t' || c == '\n' || c == '\r' || c == Char.ofNat 11 || c == Char.ofNat 12

/-- Lowercased character list of a string, modelling Python str.lower() on
ASCII data. -/
def lowerChars (s : String) : List Char :=
  s.toList.map Char.toLower

/-- Test whether the first character list starts the second one. -/
def startsWithChars : List Char → List Char → Bool
  | [], _ => true
  | _ :: _, [] => false
  | a :: as, b :: bs => a == b && startsWithChars as bs

/-- Test whether the first character list occurs contiguously in the second,
modelling Python `needle in haystack`. -/
def hasSubChars : List Char → List Char → Bool
  | needle, [] => needle.isEmpty
  | needle, c :: rest => startsWithChars needle (c :: rest) || hasSubChars needle rest

/-- Python str.split() with no separator: split on whitespace runs, discarding
empty pieces. The accumulator holds the current word reversed. -/
def splitWsAux : List Char → List Char → List (List Char)
  | [], acc => if acc.isEmpty then [] else [acc.reverse]
  | c :: rest, acc =>
      if pyIsSpace c then
        if acc.isEmpty then splitWsAux rest [] else acc.reverse :: splitWsAux rest []
      else splitWsAux rest (c :: acc)

/-- Python text.split() as a list of words (each a character list). -/
def pyWords (text : String) : List (List Char) :=
  splitWsAux text.toList []

/-- Number of whitespace-delimited tokens of a text, Python len(text.split()). -/
def wordCount (text : String) : Nat :=
  (pyWords text).length

/-- Python str.split(sep) for a single-character separator: every occurrence of
the separator ends a piece, and empty pieces are kept. -/
def splitOnChar (sep : Char) : List Char → List (List Char)
  | [] => [[]]
  | c :: rest =>
      if c == sep then [] :: splitOnChar sep rest
      else
        match splitOnChar sep rest with
        | [] => [[c]]
        | p :: ps => (c :: p) :: ps

/-- Python str.strip() with no arguments: remove leading and trailing
whitespace. -/
def stripChars (l : List Char) : List Char :=
  ((l.dropWhile pyIsSpace).reverse.dropWhile pyIsSpace).reverse

/-! ## Error classification and dispatch (llm_service_fixed.py lines 49-94) -/

/-- Quota/rate-limit keyword list from llm_service_fixed.py line 85. -/
def quotaKeywords : List String :=
  ["quota", "rate limit", "429", "insufficient_quota", "exceeded"]

/-- Authentication keyword list from llm_service_fixed.py line 90. -/
def authKeywords : List String :=
  ["authentication", "api key", "unauthorized", "401"]

/-- Python `any(keyword in error_message for keyword in kws)` where
`error_message = str(e).lower()`. -/
def containsAnyKeyword (msg : String) (kws : List String) : Bool :=
  kws.any (fun k => hasSubChars k.toList (lowerChars msg))

/-- Error classes distinguished by the except-handler of generate_response. -/
inductive ErrClass
  | quota
  | auth
  | other
deriving DecidableEq

/-- Classification performed inline by generate_response (lines 84-94): the
lowercased message is matched against the quota keywords first, then the auth
keywords; no match is a hard error. -/
def classifyError (msg : String) : ErrClass :=
  if containsAnyKeyword msg quotaKeywords then .quota
  else if containsAnyKeyword msg authKeywords then .auth
  else .other

/-- Terminal outcome of one dispatch. -/
inductive GenOutcome
  | success (isFallback : Bool)
  | failed (msg : String)
deriving DecidableEq

/-- Outcome skeleton of LLMService.generate_response (lines 49-94): in demo mode
a demo response is returned with is_fallback_mode = not demo_mode; on adapter
success a real response; on adapter failure the lowercased message is checked
against the quota keywords, then the auth keywords, falling back to a demo
response (is_fallback_mode = not demo_mode) on a match and re-raising otherwise. -/
def generate_response_outcome (demoMode : Bool) (adapter : Except String String) :
    GenOutcome :=
  if demoMode then .success (!demoMode)
  else
    match adapter with
    | .ok _ => .success false
    | .error e =>
        if containsAnyKeyword e quotaKeywords then .success (!demoMode)
        else if containsAnyKeyword e authKeywords then .success (!demoMode)
        else .failed e

/-! ## Metric computations (llm_service_fixed.py lines 284-362) -/

/-- Positive lexicon of _calculate_sentiment (line 300). -/
def positiveWords : List String :=
  ["good", "great", "excellent", "amazing", "wonderful", "fantastic"]

/-- Negative lexicon of _calculate_sentiment (line 301). -/
def negativeWords : List String :=
  ["bad", "terrible", "awful", "horrible", "poor", "disappointing"]

/-- Python text.lower().split() of _calculate_sentiment line 303. -/
def lowerWords (text : String) : List (List Char) :=
  splitWsAux (lowerChars text) []

/-- Count of lowercased tokens that are exactly a positive-lexicon word. -/
def positiveCount (text : String) : Nat :=
  ((lowerWords text).filter (fun w => (positiveWords.map String.toList).contains w)).length

/-- Count of lowercased tokens that are exactly a negative-lexicon word. -/
def negativeCount (text : String) : Nat :=
  ((lowerWords text).filter (fun w => (negativeWords.map String.toList).contains w)).length

/-- Embedding of LLMService._calculate_sentiment (lines 297-310). -/
def calculateSentiment (text : String) : ℚ :=
  if positiveCount text + negativeCount text = 0 then 0
  else ((positiveCount text : ℚ) - (negativeCount text : ℚ))
        / ((positiveCount text : ℚ) + (negativeCount text : ℚ))

/-- Vowel set used by _count_syllables (line 330). -/
def vowelChars : List Char :=
  ['a', 'e', 'i', 'o', 'u', 'y']

/-- Count of transitions into a vowel run, the loop of _count_syllables
(lines 331-338); the flag records whether the previous character was a vowel. -/
def countVowelGroups : List Char → Bool → Nat
  | [], _ => 0
  | c :: rest, prevVowel =>
      let isV := vowelChars.contains c
      (if isV && !prevVowel then 1 else 0) + countVowelGroups rest isV

/-- Embedding of LLMService._count_syllables (lines 327-344): lowercase the
word, count vowel-group entries, subtract one for a trailing e (the count is
then still non-negative since such a word contains the vowel e), floor at 1. -/
def countSyllables (word : List Char) : Nat :=
  let w := word.map Char.toLower
  let n := countVowelGroups w false
  let n2 := if w.getLast? == some 'e' then n - 1 else n
  max 1 n2

/-- Sentence-splitting character class of _calculate_readability line 316. -/
def isSentenceDelim (c : Char) : Bool :=
  c == '.' || c == '!' || c == '?'

/-- Number of maximal runs of sentence delimiters; the flag records whether the
previous character was a delimiter. -/
def countDelimRuns : List Char → Bool → Nat
  | [], _ => 0
  | c :: rest, inRun =>
      if isSentenceDelim c then (if inRun then 0 else 1) + countDelimRuns rest true
      else countDelimRuns rest false

/-- Python len(re.split on runs of . ! ?) from _calculate_readability line 316:
the number of pieces is the number of maximal delimiter runs plus one, hence
always at least 1. -/
def numSentenceParts (text : String) : Nat :=
  countDelimRuns text.toList false + 1

/-- Total syllables over the whitespace tokens, _calculate_readability line 318. -/
def totalSyllables (text : String) : Nat :=
  ((pyWords text).map countSyllables).sum

/-- The raw simplified Flesch Reading Ease expression of line 324 (206.835,
1.015 and 84.6 as exact rationals). -/
def fleschScore (text : String) : ℚ :=
  206835 / 1000 - 1015 / 1000 * ((wordCount text : ℚ) / (numSentenceParts text : ℚ))
    - 846 / 10 * ((totalSyllables text : ℚ) / (wordCount text : ℚ))

/-- Embedding of LLMService._calculate_readability (lines 312-325). -/
def calculateReadability (text : String) : ℚ :=
  if numSentenceParts text = 0 ∨ wordCount text = 0 then 0
  else max 0 (min 100 (fleschScore text)) / 100

/-- Python text.split with separator the period, _calculate_coherence line 348. -/
def coherenceSegments (text : String) : List (List Char) :=
  splitOnChar '.' text.toList

/-- Word counts of the segments that are non-empty after stripping
(_calculate_coherence line 353). -/
def segmentWordCounts (text : String) : List Nat :=
  ((coherenceSegments text).filter (fun s => !(stripChars s).isEmpty)).map
    (fun s => (splitWsAux s []).length)

/-- The segment word counts as rationals, the values entering the mean and
variance of lines 357-358. -/
def segmentLengths (text : String) : List ℚ :=
  (segmentWordCounts text).map (fun n => (n : ℚ))

/-- Python sum(l)/len(l), the avg_length of line 357. -/
def meanOf (l : List ℚ) : ℚ :=
  l.sum / l.length

/-- Population variance of line 358. -/
def varianceOf (l : List ℚ) : ℚ :=
  ((l.map (fun x => (x - meanOf l) ^ 2)).sum) / l.length

/-- Embedding of LLMService._calculate_coherence (lines 346-362): fewer than 2
period-split segments gives 1.0; at least 2 segments all of which strip to
empty gives 0.0; otherwise 1 / (1 + variance / max(mean, 1)). -/
def calculateCoherence (text : String) : ℚ :=
  if (coherenceSegments text).length < 2 then 1
  else if (segmentLengths text).isEmpty then 0
  else 1 / (1 + varianceOf (segmentLengths text) / max (meanOf (segmentLengths text)) 1)

/-- Static cost table of _estimate_cost (lines 287-292), dollars per 1000
tokens as exact rationals. -/
def costPer1kTokens : List (String × ℚ) :=
  [("gpt-4", 3 / 100), ("gpt-3.5-turbo", 2 / 1000),
   ("claude-3-opus", 15 / 1000), ("claude-3-sonnet", 3 / 1000)]

/-- Python cost_per_1k_tokens.get(model_name, 0.001) of line 294. -/
def lookupCostRate (modelName : String) : ℚ :=
  match costPer1kTokens.find? (fun p => p.1 == modelName) with
  | some p => p.2
  | none => 1 / 1000

/-- Embedding of LLMService._estimate_cost (lines 284-295). -/
def estimateCost (tokenCount : Nat) (modelName : String) : ℚ :=
  ((tokenCount : ℚ) / 1000) * lookupCostRate modelName

example : calculateSentiment "good." = 0 := by
  have h1 : positiveCount "good." = 0 := by decide
  have h2 : negativeCount "good." = 0 := by decide
  rw [calculateSentiment, h1, h2]
  norm_num

example : calculateSentiment "a good great bad day" = 1 / 3 := by
  have h1 : positiveCount "a good great bad day" = 2 := by decide
  have h2 : negativeCount "a good great bad day" = 1 := by decide
  rw [calculateSentiment, h1, h2]
  norm_num

example : calculateCoherence "." = 0 := by
  have h1 : ¬ (coherenceSegments ".").length < 2 := by decide
  have h2 : (segmentLengths ".").isEmpty = true := by
    rw [segmentLengths, show segmentWordCounts "." = [] from by decide]
    rfl
  rw [calculateCoherence, if_neg h1, if_pos h2]

example : calculateCoherence "" = 1 := by
  rw [calculateCoherence, if_pos (by decide)]

example : calculateCoherence "hi there. you two" = 1 := by
  have h1 : ¬ (coherenceSegments "hi there. you two").length < 2 := by decide
  have h2 : segmentLengths "hi there. you two" = [2, 2] := by
    rw [segmentLengths, show segmentWordCounts "hi there. you two" = [2, 2] from by decide]
    norm_num
  rw [calculateCoherence, if_neg h1, h2]
  norm_num [meanOf, varianceOf]

example : calculateReadability "" = 0 := by
  rw [calculateReadability, if_pos (Or.inr (by decide))]

example : estimateCost 1000 "gpt-4" = 3 / 100 := by
  rw [estimateCost, show lookupCostRate "gpt-4" = 3 / 100 from by
    simp [lookupCostRate, costPer1kTokens, List.find?]]
  norm_num

example : estimateCost 1000 "mystery-model" = 1 / 1000 := by
  rw [estimateCost, show lookupCostRate "mystery-model" = 1 / 1000 from by
    simp [lookupCostRate, costPer1kTokens, List.find?]]
  norm_num

/-! ## Data model (models.py) and the success-path metrics builder -/

/-- Provider enum of models.py. -/
inductive ModelProvider
  | openai
  | anthropic
  | huggingface
deriving DecidableEq

/-- ModelConfig of models.py with its defaults. -/
structure ModelConfig where
  provider : ModelProvider
  model_name : String
  temperature : ℚ := 7 / 10
  max_tokens : Option Nat := some 1000
  top_p : ℚ := 1
  frequency_penalty : ℚ := 0
  presence_penalty : ℚ := 0
deriving DecidableEq

/-- MetricsData of models.py: three advanced scores are optional with default
None. -/
structure MetricsData where
  response_length : Nat
  token_count : Nat
  latency_ms : ℚ
  cost_estimate : ℚ
  sentiment_score : Option ℚ := none
  readability_score : Option ℚ := none
  coherence_score : Option ℚ := none
deriving DecidableEq

/-- Embedding of LLMService._calculate_metrics (lines 250-273), the success
path: all three advanced scores are computed from the response text (the
except-branch of lines 274-282 is unreachable in this pure model). -/
def calculate_metrics (response : String) (latency_ms : ℚ) (config : ModelConfig) :
    MetricsData :=
  { response_length := response.toList.length
    token_count := wordCount response
    latency_ms := latency_ms
    cost_estimate := estimateCost (wordCount response) config.model_name
    sentiment_score := some (calculateSentiment response)
    readability_score := some (calculateReadability response)
    coherence_score := some (calculateCoherence response) }

/-! ## Demo / fallback response generation (lines 180-248) -/

/-- The apostrophe character, kept out of string literals. -/
def apostrophe : String :=
  (Char.ofNat 39).toString

/-- First canned OpenAI demo template (line 191). -/
def openaiDemo1 : String :=
  "🔧 **Demo Mode Response** - This simulates OpenAI" ++ apostrophe ++
  "s GPT response. In production, this would be generated by the actual OpenAI API with full language model capabilities."

/-- Second canned OpenAI demo template (line 192). -/
def openaiDemo2 : String :=
  "📱 **Mock Response** - This demonstrates how OpenAI" ++ apostrophe ++
  "s models would respond to your prompt. The real implementation connects to OpenAI" ++
  apostrophe ++ "s API for authentic AI-generated content."

/-- Third canned OpenAI demo template (line 193). -/
def openaiDemo3 : String :=
  "⚡ **Playground Demo** - This sample response shows the expected output format from OpenAI" ++
  apostrophe ++ "s language models. Actual deployment uses live API connections."

/-- First canned Anthropic demo template (line 196). -/
def anthropicDemo1 : String :=
  "🔧 **Demo Mode Response** - This simulates Claude" ++ apostrophe ++
  "s response style. In production, Anthropic" ++ apostrophe ++
  "s AI assistant would provide thoughtful, nuanced responses with strong reasoning capabilities."

/-- Second canned Anthropic demo template (line 197). -/
def anthropicDemo2 : String :=
  "📱 **Mock Response** - This demonstrates Claude" ++ apostrophe ++
  "s approach to helpful, harmless, and honest responses. Real deployment connects to Anthropic" ++
  apostrophe ++ "s API."

/-- Third canned Anthropic demo template (line 198). -/
def anthropicDemo3 : String :=
  "⚡ **Playground Demo** - This sample shows how Claude typically structures detailed, ethical responses. Actual implementation uses live Anthropic API."

/-- First canned Hugging Face demo template (line 201). -/
def hfDemo1 : String :=
  "🔧 **Demo Mode Response** - This simulates output from Hugging Face models. Production deployment would use actual open-source transformer models from the Hub."

/-- Second canned Hugging Face demo template (line 202). -/
def hfDemo2 : String :=
  "📱 **Mock Response** - This demonstrates the variety of responses possible with Hugging Face" ++
  apostrophe ++ "s ecosystem of community models."

/-- Third canned Hugging Face demo template (line 203). -/
def hfDemo3 : String :=
  "⚡ **Playground Demo** - This sample shows typical output from open-source language models. Real implementation connects to Hugging Face inference."

/-- The demo_responses table of lines 189-205, keyed by provider. -/
def demoResponsesFor : ModelProvider → List String
  | .openai => [openaiDemo1, openaiDemo2, openaiDemo3]
  | .anthropic => [anthropicDemo1, anthropicDemo2, anthropicDemo3]
  | .huggingface => [hfDemo1, hfDemo2, hfDemo3]

/-- Default of the demo_responses dict lookup (line 208). -/
def defaultDemoResponse : String :=
  "🔧 **Demo Mode** - Mock response for testing purposes."

/-- Fallback-mode warning wrapper of line 213. -/
def fallbackNotice (t : String) : String :=
  "⚠️ **API Quota/Auth Error - Fallback Mode Active**\n\n" ++ t ++
  "\n\n*Note: This demo response was triggered due to API quota limits or authentication issues. Please check your API keys and quota status.*"

/-- Prompt-echoing note of line 217, with the 100-character prompt slice. -/
def promptNote (prompt : String) : String :=
  "\n\n💡 *Your prompt: " ++ apostrophe ++ String.mk (prompt.toList.take 100) ++
  (if 100 < prompt.toList.length then "..." else "") ++ apostrophe ++
  " - This showcases the interactive nature of the prompt engineering playground.*"

/-- Response text built by _generate_demo_response (lines 188-217); the
random.choice draw is the explicit index argument. -/
def demoResponseText (prompt : String) (provider : ModelProvider) (choice : Nat)
    (isFallbackMode : Bool) : String :=
  let base := (demoResponsesFor provider).getD choice defaultDemoResponse
  let t1 := if isFallbackMode then fallbackNotice base else base
  if hasSubChars "question".toList (lowerChars prompt)
      || hasSubChars "?".toList prompt.toList then
    t1 ++ promptNote prompt
  else t1

/-- Python int(word_count * 1.3) of line 224: truncation of a non-negative
value, i.e. floor, realized as Nat division. -/
def demoTokenCount (responseText : String) : Nat :=
  wordCount responseText * 13 / 10

/-- MetricsData built by _generate_demo_response (lines 222-233): cost,
sentiment and readability are random.uniform draws, passed here explicitly, and
coherence_score is never set. -/
def demoMetricsData (responseText : String) (latency costDraw sentDraw readDraw : ℚ) :
    MetricsData :=
  { response_length := responseText.toList.length
    token_count := demoTokenCount responseText
    latency_ms := latency
    cost_estimate := costDraw
    sentiment_score := some sentDraw
    readability_score := some readDraw
    coherence_score := none }

/-! ## Aggregation (main.py lines 150-236) -/

/-- One element of the all_responses list built by run_experiment: a successful
run carries a metrics dict and no error key; a failed run carries an error
message and no metrics. -/
structure ResponseEntry where
  error : Option String := none
  metrics : Option MetricsData := none
deriving DecidableEq

/-- Python values list of main.py line 227 for one metric key. -/
def aggValues (responses : List ResponseEntry) (f : MetricsData → ℚ) : List ℚ :=
  (responses.filterMap (fun r => r.metrics)).map f

/-- The avg/min/max triple of main.py lines 229-231, absent when no entry has
metrics. -/
def aggStats (responses : List ResponseEntry) (f : MetricsData → ℚ) :
    Option (ℚ × ℚ × ℚ) :=
  match aggValues responses f with
  | [] => none
  | v :: vs => some ((v :: vs).sum / ((v :: vs).length : ℚ), vs.foldl min v, vs.foldl max v)

/-- Result of calculate_aggregate_metrics for a non-empty input. -/
structure AggregateMetrics where
  response_length_stats : Option (ℚ × ℚ × ℚ)
  token_count_stats : Option (ℚ × ℚ × ℚ)
  latency_ms_stats : Option (ℚ × ℚ × ℚ)
  cost_estimate_stats : Option (ℚ × ℚ × ℚ)
  total_responses : Nat
  success_rate : ℚ
deriving DecidableEq

/-- Count of entries carrying an error key (main.py line 234). -/
def errorCount (responses : List ResponseEntry) : Nat :=
  (responses.filter (fun r => r.error.isSome)).length

/-- Embedding of calculate_aggregate_metrics (main.py lines 218-236): empty
input gives the empty dict (none); otherwise per-key stats, total_responses =
len(responses), and success_rate = len(responses) / (len(responses) + number of
entries with an error key). -/
def calculate_aggregate_metrics (responses : List ResponseEntry) :
    Option AggregateMetrics :=
  if responses.isEmpty then none
  else some
    { response_length_stats := aggStats responses (fun m => (m.response_length : ℚ))
      token_count_stats := aggStats responses (fun m => (m.token_count : ℚ))
      latency_ms_stats := aggStats responses (fun m => m.latency_ms)
      cost_estimate_stats := aggStats responses (fun m => m.cost_estimate)
      total_responses := responses.length
      success_rate := (responses.length : ℚ)
          / ((responses.length : ℚ) + (errorCount responses : ℚ)) }

/-- The pre-filtering of main.py line 193: keep the entries without an error
key. -/
def successfulResponses (all_responses : List ResponseEntry) : List ResponseEntry :=
  all_responses.filter (fun r => r.error.isNone)

/-- Aggregation step of run_experiment (main.py lines 192-194): the batch is
filtered to successes before calculate_aggregate_metrics sees it. -/
def run_experiment_aggregate (all_responses : List ResponseEntry) :
    Option AggregateMetrics :=
  calculate_aggregate_metrics (successfulResponses all_responses)

example : countSyllables "hello".toList = 2 := by decide
example : countSyllables "the".toList = 1 := by decide
example : numSentenceParts "a.b!c" = 3 := by decide
example : numSentenceParts "a...b" = 2 := by decide

/-! ## Concrete inputs used by claim evaluations -/

/-- Metrics attached to a successful run in the C1 scenario batch. -/
def c1SuccessMetrics (rl : Nat) : MetricsData :=
  { response_length := rl, token_count := 5, latency_ms := 100, cost_estimate := 0 }

/-- First successful entry of the C1 scenario batch. -/
def c1Succ1 : ResponseEntry :=
  { metrics := some (c1SuccessMetrics 10) }

/-- Second successful entry of the C1 scenario batch. -/
def c1Succ2 : ResponseEntry :=
  { metrics := some (c1SuccessMetrics 20) }

/-- The hard-failure entry appended by run_experiment for an adapter error
whose message matches no keyword. -/
def c1Failure : ResponseEntry :=
  { error := some "service unavailable" }

/-- The C1 scenario batch: two successes and one hard failure. -/
def c1Batch : List ResponseEntry :=
  [c1Succ1, c1Succ2, c1Failure]

/-! ## Claim theorems -/

/-- Claim C4: the error classification is a total function of the message using
case-insensitive substring matching with the quota keyword set checked before
the auth keyword set; classify of the 429 message is Quota, of the 401 message
is Auth, and of a connection reset is Other. -/
theorem classify_error_spec :
    classifyError "Error: 429 Too Many Requests" = .quota
    ∧ classifyError "401 Unauthorized: bad api key" = .auth
    ∧ classifyError "connection reset" = .other
    ∧ (∀ msg, containsAnyKeyword msg quotaKeywords = true → classifyError msg = .quota)
    ∧ (∀ msg, containsAnyKeyword msg quotaKeywords = false →
        containsAnyKeyword msg authKeywords = true → classifyError msg = .auth)
    ∧ (∀ msg, containsAnyKeyword msg quotaKeywords = false →
        containsAnyKeyword msg authKeywords = false → classifyError msg = .other) := by
  refine ⟨by decide, by decide, by decide, ?_, ?_, ?_⟩ <;>
    · intro msg
      intros
      simp [classifyError, *]

/-- Witness for C4, instantiating the universally quantified clauses: a message
matching both keyword sets classifies as Quota (precedence), one matching only
the auth set as Auth, one matching neither as Other. -/
theorem classify_error_spec_witness :
    classifyError "429 quota exceeded while unauthorized" = .quota
    ∧ classifyError "bad api key" = .auth
    ∧ classifyError "boom" = .other :=
  ⟨classify_error_spec.2.2.2.1 _ (by decide),
   classify_error_spec.2.2.2.2.1 _ (by decide) (by decide),
   classify_error_spec.2.2.2.2.2 _ (by decide) (by decide)⟩

/-- Claim C3: on adapter failure outside demo mode, a message matching a quota or
auth keyword produces a successful fallback-marked outcome, any other message
propagates as a hard failure; in particular an insufficient_quota error falls
back with is_fallback true and an uninitialized-client error propagates. -/
theorem dispatch_fallback_spec :
    (∀ e, (containsAnyKeyword e quotaKeywords || containsAnyKeyword e authKeywords) = true →
      generate_response_outcome false (.error e) = .success true)
    ∧ (∀ e, (containsAnyKeyword e quotaKeywords || containsAnyKeyword e authKeywords) = false →
      generate_response_outcome false (.error e) = .failed e)
    ∧ generate_response_outcome false (.error "Error code: 429 - insufficient_quota")
        = .success true
    ∧ generate_response_outcome false (.error "OpenAI client not initialized")
        = .failed "OpenAI client not initialized" := by
  refine ⟨?_, ?_, by decide, by decide⟩
  · intro e he
    rcases Bool.or_eq_true_iff.mp he with h | h <;>
      simp [generate_response_outcome, h]
  · intro e he
    rw [Bool.or_eq_false_iff] at he
    simp [generate_response_outcome, he.1, he.2]

/-- Witness for C3, instantiating both universally quantified clauses at
concrete error messages. -/
theorem dispatch_fallback_spec_witness :
    generate_response_outcome false (.error "insufficient_quota") = .success true
    ∧ generate_response_outcome false (.error "service down") = .failed "service down" :=
  ⟨dispatch_fallback_spec.1 _ (by decide), dispatch_fallback_spec.2.1 _ (by decide)⟩

/-- Claim C10: lexicon matching compares whole whitespace tokens, so the text
consisting of the word good followed by a period contains no lexicon token and
scores 0.0, while the bare word good scores positively. -/
theorem sentiment_whole_token_matching :
    lowerWords "good." = [['g', 'o', 'o', 'd', '.']]
    ∧ calculateSentiment "good." = 0
    ∧ 0 < calculateSentiment "good" := by
  refine ⟨by decide, ?_, ?_⟩
  · rw [calculateSentiment, show positiveCount "good." = 0 from by decide,
        show negativeCount "good." = 0 from by decide]
    norm_num
  · rw [calculateSentiment, show positiveCount "good" = 1 from by decide,
        show negativeCount "good" = 0 from by decide]
    norm_num

/-- Claim C1: evaluation of the code on the scenario batch of one hard failure with
message service unavailable and two successes. The dispatcher does return a
hard failure, but run_experiment filters failures out before aggregation, so
the computed success_rate is 1, not the 2/3 the specification requires; even
aggregating the unfiltered batch would give 3/4. -/
theorem aggregate_success_rate_code_eval :
    generate_response_outcome false (.error "service unavailable")
        = .failed "service unavailable"
    ∧ (run_experiment_aggregate c1Batch).map AggregateMetrics.success_rate = some 1
    ∧ (calculate_aggregate_metrics c1Batch).map AggregateMetrics.success_rate = some (3 / 4)
    ∧ (1 : ℚ) ≠ 2 / 3 ∧ (3 / 4 : ℚ) ≠ 2 / 3 := by
  refine ⟨by decide, ?_, ?_, by norm_num, by norm_num⟩
  · have hfilter : successfulResponses c1Batch = [c1Succ1, c1Succ2] := by
      simp [successfulResponses, c1Batch, c1Succ1, c1Succ2, c1Failure]
    rw [run_experiment_aggregate, hfilter, calculate_aggregate_metrics]
    have herr : errorCount [c1Succ1, c1Succ2] = 0 := by
      simp [errorCount, c1Succ1, c1Succ2]
    simp [herr]
  · rw [calculate_aggregate_metrics]
    have herr : errorCount c1Batch = 1 := by
      simp [errorCount, c1Batch, c1Succ1, c1Succ2, c1Failure]
    have hne : c1Batch.isEmpty = false := by simp [c1Batch]
    have hlen : c1Batch.length = 3 := by simp [c1Batch]
    simp only [hne, Bool.false_eq_true, if_false, Option.map_some, herr, hlen]
    norm_num

/-- Claim C2: a non-empty batch in which no entry carries an error key — exactly the
shape run_experiment hands to the aggregation after its pre-filtering — always
yields success_rate = 1, because the failure term of the denominator is zero. -/
theorem success_rate_always_one (responses : List ResponseEntry)
    (hne : responses ≠ [])
    (hall : ∀ r ∈ responses, r.error = none) :
    ∃ agg, calculate_aggregate_metrics responses = some agg ∧ agg.success_rate = 1 := by
  have hempty : responses.isEmpty = false := by
    cases responses with
    | nil => exact absurd rfl hne
    | cons a l => rfl
  have herr : errorCount responses = 0 := by
    rw [errorCount, List.length_eq_zero, List.filter_eq_nil_iff]
    intro r hr
    simp [hall r hr]
  have hlen : (responses.length : ℚ) ≠ 0 := by
    have h0 : responses.length ≠ 0 := by
      simpa [List.length_eq_zero] using hne
    exact_mod_cast h0
  rw [calculate_aggregate_metrics, hempty]
  refine ⟨_, by rw [if_neg]; simp, ?_⟩
  simp only [herr, Nat.cast_zero, add_zero]
  exact div_self hlen

/-- Witness for C2 at a concrete two-success batch. -/
theorem success_rate_always_one_witness :
    ∃ agg, calculate_aggregate_metrics [c1Succ1, c1Succ2] = some agg
      ∧ agg.success_rate = 1 :=
  success_rate_always_one [c1Succ1, c1Succ2] (by simp) (by decide)

/-- Claim C7: the sentiment score equals (pos − neg)/(pos + neg) over lowercase
whitespace tokens matched exactly against the two 6-word lexicons, is 0.0 when
no lexicon word occurs, and always lies in [-1, 1]. -/
theorem sentiment_score_spec (text : String) :
    -1 ≤ calculateSentiment text ∧ calculateSentiment text ≤ 1
    ∧ (positiveCount text + negativeCount text = 0 → calculateSentiment text = 0)
    ∧ (positiveCount text + negativeCount text ≠ 0 →
        calculateSentiment text
          = ((positiveCount text : ℚ) - (negativeCount text : ℚ))
            / ((positiveCount text : ℚ) + (negativeCount text : ℚ)))
    ∧ positiveWords.length = 6 ∧ negativeWords.length = 6 := by
  have hp : (0:ℚ) ≤ (positiveCount text : ℚ) := Nat.cast_nonneg _
  have hn : (0:ℚ) ≤ (negativeCount text : ℚ) := Nat.cast_nonneg _
  by_cases h : positiveCount text + negativeCount text = 0
  · rw [calculateSentiment, if_pos h]
    exact ⟨by norm_num, by norm_num, fun _ => rfl, fun hc => absurd h hc, by decide, by decide⟩
  · have hpos : (0:ℚ) < (positiveCount text : ℚ) + (negativeCount text : ℚ) := by
      have h0 : 0 < positiveCount text + negativeCount text := Nat.pos_of_ne_zero h
      exact_mod_cast h0
    rw [calculateSentiment, if_neg h]
    refine ⟨?_, ?_, fun hc => absurd hc h, fun _ => rfl, by decide, by decide⟩
    · rw [neg_le, ← neg_div, div_le_one hpos]
      linarith
    · rw [div_le_one hpos]
      linarith

/-- Witness for C7: a text without lexicon words scores exactly 0, and the
lower bound holds at a mixed text. -/
theorem sentiment_score_spec_witness :
    calculateSentiment "nothing here" = 0 ∧ -1 ≤ calculateSentiment "great bad mix" :=
  ⟨(sentiment_score_spec "nothing here").2.2.1 (by decide),
   (sentiment_score_spec "great bad mix").1⟩

/-- Helper: the sentence-part count, one more than the number of delimiter
runs, is never zero. -/
theorem numSentenceParts_pos (text : String) : 0 < numSentenceParts text :=
  Nat.succ_pos _

/-- Claim C8: the readability score is the simplified Flesch value clamped to
[0, 100] and divided by 100, lies in [0, 1], and is 0.0 when the word count is
zero; the sentence-count-zero guard holds vacuously since the split always
yields at least one part. -/
theorem readability_score_spec (text : String) :
    0 ≤ calculateReadability text ∧ calculateReadability text ≤ 1
    ∧ (wordCount text = 0 → calculateReadability text = 0)
    ∧ (numSentenceParts text = 0 → calculateReadability text = 0)
    ∧ (wordCount text ≠ 0 →
        calculateReadability text = max 0 (min 100 (fleschScore text)) / 100) := by
  have hclamp0 : (0:ℚ) ≤ max 0 (min 100 (fleschScore text)) := le_max_left 0 _
  have hclamp100 : max 0 (min 100 (fleschScore text)) ≤ 100 :=
    max_le (by norm_num) (min_le_left _ _)
  by_cases hc : numSentenceParts text = 0 ∨ wordCount text = 0
  · have hval : calculateReadability text = 0 := by rw [calculateReadability, if_pos hc]
    rw [hval]
    refine ⟨le_refl 0, by norm_num, fun _ => rfl, fun _ => rfl, fun hw => ?_⟩
    rcases hc with hs | hw0
    · exact absurd hs (Nat.pos_iff_ne_zero.mp (numSentenceParts_pos text))
    · exact absurd hw0 hw
  · have hval : calculateReadability text = max 0 (min 100 (fleschScore text)) / 100 := by
      rw [calculateReadability, if_neg hc]
    push_neg at hc
    rw [hval]
    refine ⟨div_nonneg hclamp0 (by norm_num), ?_, fun hw0 => absurd hw0 hc.2,
      fun hs0 => absurd hs0 hc.1, fun _ => rfl⟩
    rw [div_le_one (by norm_num : (0:ℚ) < 100)]
    exact hclamp100

/-- Witness for C8: the empty text has word count zero and readability 0; a
concrete sentence stays within the upper bound. -/
theorem readability_score_spec_witness :
    calculateReadability "" = 0 ∧ calculateReadability "Hello world." ≤ 1 :=
  ⟨(readability_score_spec "").2.2.1 (by decide),
   (readability_score_spec "Hello world.").2.1⟩

/-- Counterexample for C5: the text consisting of a single period contains exactly
one period and splits into no non-empty segment, yet its coherence score is
0.0 — not the 1.0 the claim requires, and outside the claimed range (0, 1]. -/
theorem coherence_period_counterexample :
    (".".toList.filter (fun c => c == '.')).length = 1
    ∧ segmentWordCounts "." = []
    ∧ calculateCoherence "." = 0
    ∧ ¬ (0 < calculateCoherence ".") := by
  have hval : calculateCoherence "." = 0 := by
    have h1 : ¬ (coherenceSegments ".").length < 2 := by decide
    have h2 : (segmentLengths ".").isEmpty = true := by
      rw [segmentLengths, show segmentWordCounts "." = [] from by decide]
      rfl
    rw [calculateCoherence, if_neg h1, if_pos h2]
  exact ⟨by decide, by decide, hval, by rw [hval]; norm_num⟩

/-- Amended claim C5: the coherence score lies in [0, 1]; it is 1.0 whenever the
text splits on periods into fewer than two parts (in particular whenever the
text contains no period); with at least two parts it is 0.0 when every part
strips to empty, and strictly positive — hence in (0, 1] — whenever some part
is non-empty. -/
theorem coherence_score_amended (text : String) :
    0 ≤ calculateCoherence text ∧ calculateCoherence text ≤ 1
    ∧ ((coherenceSegments text).length < 2 → calculateCoherence text = 1)
    ∧ (2 ≤ (coherenceSegments text).length → segmentWordCounts text = [] →
        calculateCoherence text = 0)
    ∧ (segmentWordCounts text ≠ [] → 0 < calculateCoherence text) := by
  have hv : 0 ≤ varianceOf (segmentLengths text) := by
    apply div_nonneg
    · apply List.sum_nonneg
      intro x hx
      simp only [List.mem_map] at hx
      obtain ⟨y, _, rfl⟩ := hx
      exact sq_nonneg _
    · exact Nat.cast_nonneg _
  have hm : (0:ℚ) < max (meanOf (segmentLengths text)) 1 :=
    lt_of_lt_of_le one_pos (le_max_right _ _)
  have hfrac : 0 ≤ varianceOf (segmentLengths text) / max (meanOf (segmentLengths text)) 1 :=
    div_nonneg hv (le_of_lt hm)
  have hden : (0:ℚ) < 1 + varianceOf (segmentLengths text) / max (meanOf (segmentLengths text)) 1 := by
    linarith
  have hscore_pos :
      0 < 1 / (1 + varianceOf (segmentLengths text) / max (meanOf (segmentLengths text)) 1) :=
    one_div_pos.mpr hden
  have hscore_le :
      1 / (1 + varianceOf (segmentLengths text) / max (meanOf (segmentLengths text)) 1) ≤ 1 := by
    rw [div_le_one hden]
    linarith
  by_cases h1 : (coherenceSegments text).length < 2
  · have hval : calculateCoherence text = 1 := by rw [calculateCoherence, if_pos h1]
    rw [hval]
    exact ⟨by norm_num, le_refl 1, fun _ => rfl,
      fun h2 _ => absurd h1 (not_lt.mpr h2), fun _ => by norm_num⟩
  · by_cases h2 : (segmentLengths text).isEmpty = true
    · have hval : calculateCoherence text = 0 := by
        rw [calculateCoherence, if_neg h1, if_pos h2]
      have hcounts : segmentWordCounts text = [] := by
        cases hsw : segmentWordCounts text with
        | nil => rfl
        | cons a l =>
            rw [segmentLengths, hsw] at h2
            simp at h2
      rw [hval]
      exact ⟨le_refl 0, by norm_num, fun hlt => absurd hlt h1,
        fun _ _ => rfl, fun hne => absurd hcounts hne⟩
    · have hval : calculateCoherence text
          = 1 / (1 + varianceOf (segmentLengths text) / max (meanOf (segmentLengths text)) 1) := by
        rw [calculateCoherence, if_neg h1, if_neg h2]
      rw [hval]
      refine ⟨le_of_lt hscore_pos, hscore_le, fun hlt => absurd hlt h1,
        fun _ hc => ?_, fun _ => hscore_pos⟩
      have : (segmentLengths text).isEmpty = true := by
        rw [segmentLengths, hc]
        rfl
      exact absurd this h2

/-- Witness for C5 amended, at a period-only text, the empty text, and a text
with two non-empty segments. -/
theorem coherence_score_amended_witness :
    calculateCoherence "." = 0 ∧ calculateCoherence "" = 1
    ∧ 0 < calculateCoherence "a. b" :=
  ⟨(coherence_score_amended ".").2.2.2.1 (by decide) (by decide),
   (coherence_score_amended "").2.2.1 (by decide),
   (coherence_score_amended "a. b").2.2.2.2 (by decide)⟩

/-- Helper: every rate the cost table can return is non-negative. -/
theorem lookupCostRate_nonneg (modelName : String) : 0 ≤ lookupCostRate modelName := by
  rw [lookupCostRate]
  cases hf : costPer1kTokens.find? (fun p => p.1 == modelName) with
  | none => norm_num
  | some pr =>
      have hmem : pr ∈ costPer1kTokens := List.mem_of_find?_eq_some hf
      simp only [costPer1kTokens, List.mem_cons, List.not_mem_nil, or_false] at hmem
      rcases hmem with h | h | h | h <;> rw [h] <;> norm_num

/-- Claim C9: the cost estimate is (token_count / 1000) times the rate from the
static table keyed by exact model name, with default 0.001 for unrecognized
names, and is monotonically non-decreasing in the token count for every fixed
model name. -/
theorem cost_estimate_spec :
    (∀ (modelName : String) (t1 t2 : Nat), t1 ≤ t2 →
        estimateCost t1 modelName ≤ estimateCost t2 modelName)
    ∧ (∀ (modelName : String) (t : Nat),
        estimateCost t modelName = ((t : ℚ) / 1000) * lookupCostRate modelName)
    ∧ lookupCostRate "gpt-4" = 3 / 100
    ∧ lookupCostRate "gpt-3.5-turbo" = 2 / 1000
    ∧ lookupCostRate "claude-3-opus" = 15 / 1000
    ∧ lookupCostRate "claude-3-sonnet" = 3 / 1000
    ∧ (∀ modelName : String, modelName ≠ "gpt-4" → modelName ≠ "gpt-3.5-turbo" →
        modelName ≠ "claude-3-opus" → modelName ≠ "claude-3-sonnet" →
        lookupCostRate modelName = 1 / 1000) := by
  refine ⟨?_, fun _ _ => rfl, ?_, ?_, ?_, ?_, ?_⟩
  · intro m t1 t2 h
    rw [estimateCost, estimateCost]
    apply mul_le_mul_of_nonneg_right _ (lookupCostRate_nonneg m)
    apply div_le_div_of_nonneg_right ?_ (by norm_num)
    exact_mod_cast h
  · simp [lookupCostRate, costPer1kTokens, List.find?]
  · simp [lookupCostRate, costPer1kTokens, List.find?]
  · simp [lookupCostRate, costPer1kTokens, List.find?]
  · simp [lookupCostRate, costPer1kTokens, List.find?]
  · intro m h1 h2 h3 h4
    have e1 : ("gpt-4" == m) = false := beq_eq_false_iff_ne.mpr (Ne.symm h1)
    have e2 : ("gpt-3.5-turbo" == m) = false := beq_eq_false_iff_ne.mpr (Ne.symm h2)
    have e3 : ("claude-3-opus" == m) = false := beq_eq_false_iff_ne.mpr (Ne.symm h3)
    have e4 : ("claude-3-sonnet" == m) = false := beq_eq_false_iff_ne.mpr (Ne.symm h4)
    simp [lookupCostRate, costPer1kTokens, List.find?, e1, e2, e3, e4]

/-- Witness for C9: monotonicity at 100 ≤ 200 tokens of gpt-4 and the default
rate at an unknown model name. -/
theorem cost_estimate_spec_witness :
    estimateCost 100 "gpt-4" ≤ estimateCost 200 "gpt-4"
    ∧ lookupCostRate "some-other-model" = 1 / 1000 :=
  ⟨cost_estimate_spec.1 "gpt-4" 100 200 (by norm_num),
   cost_estimate_spec.2.2.2.2.2.2 "some-other-model"
     (by decide) (by decide) (by decide) (by decide)⟩

/-- Example configuration used in the C6 counterexample. -/
def c6Config : ModelConfig :=
  { provider := .openai, model_name := "gpt-3.5-turbo" }

/-- Concrete fallback response text for the C6 counterexample: OpenAI
provider, first template, fallback mode, a prompt without a question. -/
def c6Text : String :=
  demoResponseText "Tell me about Lean" .openai 0 true

/-- Counterexample for C6: at a concrete prompt, configuration and draws, the
fallback-path MetricsSnapshot omits coherence_score entirely and carries the
random sentiment draw, while the success-path metrics computation on the very
same response text computes a coherence score and a sentiment of 0 — so the
fallback does not invoke the same metrics computation, and the differences are
not confined to token_count and cost_estimate. -/
theorem fallback_metrics_counterexample :
    (demoMetricsData c6Text 1200 (1 / 2000) (1 / 2) (3 / 4)).coherence_score = none
    ∧ (calculate_metrics c6Text 1200 c6Config).coherence_score
        = some (calculateCoherence c6Text)
    ∧ (calculate_metrics c6Text 1200 c6Config).coherence_score ≠ none
    ∧ (calculate_metrics c6Text 1200 c6Config).sentiment_score = some 0
    ∧ (demoMetricsData c6Text 1200 (1 / 2000) (1 / 2) (3 / 4)).sentiment_score
        ≠ (calculate_metrics c6Text 1200 c6Config).sentiment_score := by
  have hsent : calculateSentiment c6Text = 0 := by
    rw [calculateSentiment, show positiveCount c6Text = 0 from by decide,
        show negativeCount c6Text = 0 from by decide]
    norm_num
  refine ⟨rfl, rfl, by simp [calculate_metrics], ?_, ?_⟩
  · show some (calculateSentiment c6Text) = some 0
    rw [hsent]
  · show some (1 / 2 : ℚ) ≠ some (calculateSentiment c6Text)
    rw [hsent]
    norm_num

/-- Amended claim C6: for every response text, latency, draws and configuration, the
fallback MetricsSnapshot agrees with the success path on response_length and
latency_ms, but its token_count is the word-count estimate, its cost_estimate,
sentiment_score and readability_score are the random draws, and its
coherence_score is absent rather than computed. -/
theorem fallback_metrics_amended (text : String)
    (latency costDraw sentDraw readDraw : ℚ) (config : ModelConfig) :
    (demoMetricsData text latency costDraw sentDraw readDraw).response_length
        = (calculate_metrics text latency config).response_length
    ∧ (demoMetricsData text latency costDraw sentDraw readDraw).latency_ms
        = (calculate_metrics text latency config).latency_ms
    ∧ (demoMetricsData text latency costDraw sentDraw readDraw).token_count
        = wordCount text * 13 / 10
    ∧ (demoMetricsData text latency costDraw sentDraw readDraw).cost_estimate = costDraw
    ∧ (demoMetricsData text latency costDraw sentDraw readDraw).sentiment_score
        = some sentDraw
    ∧ (demoMetricsData text latency costDraw sentDraw readDraw).readability_score
        = some readDraw
    ∧ (demoMetricsData text latency costDraw sentDraw readDraw).coherence_score = none :=
  ⟨rfl, rfl, rfl, rfl, rfl, rfl, rfl⟩

end LlmPlayground
